import Mathlib

/-!
Verification development for the AI-text-moderator repository.

The repository has three entry-point files with near-duplicate moderation
logic:
  * `chat_moderation/main.py`   — full service (namespace `ChatMod` below);
  * `api/index.py`              — deployment variant (namespace `Api`);
  * `api/moderate.py`           — minimal keyword-based variant (namespace
    `ApiMin`; its `clean_rephrased_text`, `is_valid_rephrasing` and
    `create_generic_polite_message` are character-for-character identical to
    the ones in `api/index.py`, so those three are defined once in `Api`).

Python strings are sequences of code points, indexed and sliced by code
point, so they are embedded as Lean `String` values manipulated through
their underlying `List Char` (`Py` namespace below).  Toxicity scores are
embedded as exact rationals.  External collaborators (the Detoxify scorer,
the Groq remote rewriter, the local T5 paraphraser) are opaque services per
the spec's §6 interfaces: a scorer outcome is `Except Unit ℚ` (a toxicity
value or a failure), and each rewriter outcome is an `Option String` (the
raw generated text, or `none` when the service is unconfigured, errors or
times out).
-/

namespace Py

/-- `is_prefix_of` on raw character lists (Python `str.startswith` core). -/
def isPrefixB : List Char → List Char → Bool
  | [], _ => true
  | _ :: _, [] => false
  | a :: as, b :: bs => a == b && isPrefixB as bs

/-- Substring containment on raw character lists (Python `in` on strings). -/
def infixB : List Char → List Char → Bool
  | [], pat => pat.isEmpty
  | l@(_ :: t), pat => isPrefixB pat l || infixB t pat

/-- Python `str.lower` (ASCII letters; all repository constants are ASCII). -/
def lower (s : String) : String := ⟨s.data.map Char.toLower⟩

/-- Python `str.strip()`: drop leading and trailing whitespace. -/
def strip (s : String) : String :=
  ⟨((s.data.dropWhile Char.isWhitespace).reverse.dropWhile Char.isWhitespace).reverse⟩

/-- Python `s.startswith(p)`. -/
def startsWith (s p : String) : Bool := isPrefixB p.data s.data

/-- Python `s.endswith(p)`. -/
def endsWith (s p : String) : Bool := isPrefixB p.data.reverse s.data.reverse

/-- Python `p in s` (substring containment). -/
def contains (s p : String) : Bool := infixB s.data p.data

/-- Python `len(s)` (number of code points). -/
def len (s : String) : Nat := s.data.length

/-- Python slice `s[n:]`. -/
def drop (s : String) (n : Nat) : String := ⟨s.data.drop n⟩

/-- Python slice `s[:-n]` for `n ≤ len(s)`. -/
def dropRight (s : String) (n : Nat) : String := ⟨(s.data.reverse.drop n).reverse⟩

/-- Drop leading characters satisfying `p` (used for `\s*` after a match). -/
def dropWhileL (s : String) (p : Char → Bool) : String := ⟨s.data.dropWhile p⟩

/-- First character, if any. -/
def front (s : String) : Option Char := s.data.head?

/-- Last character, if any. -/
def back (s : String) : Option Char := s.data.getLast?

end Py

/-- The process-wide toxicity threshold (`TOXICITY_THRESHOLD = 0.5`).
Rational literals throughout are written with `mkRat` so that every
definition evaluates inside the kernel. -/
def TOXICITY_THRESHOLD : ℚ := mkRat 1 2

/-- Python `round(x, 3)`: round to 3 decimal places, ties to even
(the binary-float representation issues of CPython floats are not modelled;
the scores are exact rationals here).  Computed on the unreduced fraction
`(1000 * q.num) / q.den = q * 1000`: with `f` its floor, the fractional part
is `(a - f * d) / d`, which is below `1/2` exactly when
`2 * (a - f * d) < d`, so the branch conditions live in the integers. -/
def round3 (q : ℚ) : ℚ :=
  let a : ℤ := 1000 * q.num
  let d : ℤ := (q.den : ℤ)
  let f : ℤ := Int.fdiv a d
  let num2 : ℤ := 2 * (a - f * d)
  let n : ℤ :=
    if num2 < d then f
    else if d < num2 then f + 1
    else if f % 2 = 0 then f else f + 1
  mkRat n 1000

/-- The JSON body returned by a `/moderate` endpoint: either
`{"allowed": true, "score": …, "text": …}` or
`{"allowed": false, "score": …, "original": …, "rephrased": …}`. -/
inductive ModResponse where
  | allowedResp (score : ℚ) (text : String)
  | blockedResp (score : ℚ) (original : String) (rephrased : String)
deriving DecidableEq

/-- The `allowed` field of a `/moderate` response. -/
def ModResponse.allowed : ModResponse → Bool
  | .allowedResp _ _ => true
  | .blockedResp _ _ _ => false

/-- The `score` field of a `/moderate` response. -/
def ModResponse.score : ModResponse → ℚ
  | .allowedResp s _ => s
  | .blockedResp s _ _ => s

/-- Whether an `Except`-modelled call returned normally. -/
def exceptOk {ε α : Type} : Except ε α → Bool
  | .ok _ => true
  | .error _ => false

deriving instance DecidableEq for Except

namespace ChatMod

/-- `chat_moderation/main.py::clean_rephrased_text`: strip whitespace, then
remove every matching boilerplate prefix in list order (case-insensitively),
then remove one layer of surrounding matching quotes. -/
def prefixes_to_remove : List String :=
  ["Here's a polite version:",
   "Rephrased:",
   "Polite version:",
   "Here's the polite version:",
   "Rewritten:",
   "Polite:",
   "Here is a polite version:",
   "Here is the polite version:"]

/-- `chat_moderation/main.py::clean_rephrased_text`. -/
def clean_rephrased_text (text : String) : String :=
  let cleaned := Py.strip text
  let cleaned := prefixes_to_remove.foldl
    (fun acc p =>
      if Py.startsWith (Py.lower acc) (Py.lower p) then
        Py.strip (Py.drop acc (Py.len p))
      else acc)
    cleaned
  if (Py.startsWith cleaned "\"" && Py.endsWith cleaned "\"")
      || (Py.startsWith cleaned "'" && Py.endsWith cleaned "'") then
    Py.strip (Py.dropRight (Py.drop cleaned 1) 1)
  else cleaned

/-- `chat_moderation/main.py::is_valid_rephrasing` refusal markers. -/
def refusal_patterns : List String :=
  ["i cannot", "i can't", "sorry", "inappropriate", "unable to",
   "i'm unable", "not appropriate", "against policy", "i apologize"]

/-- `chat_moderation/main.py::is_valid_rephrasing`: length ≥ 5, no refusal
marker, not case-insensitively identical (after strip) to the original. -/
def is_valid_rephrasing (original rephrased : String) : Bool :=
  if Py.len rephrased < 5 then false
  else if refusal_patterns.any (fun p => Py.contains (Py.lower rephrased) p) then false
  else if Py.lower (Py.strip original) = Py.lower (Py.strip rephrased) then false
  else true

/-- `chat_moderation/main.py::create_generic_polite_message`: fixed-priority
keyword classification of the lower-cased original, first match wins. -/
def create_generic_polite_message (original_text : String) : String :=
  let text_lower := Py.lower original_text
  if ["stupid", "idiot", "dumb", "moron"].any (fun w => Py.contains text_lower w) then
    "I respectfully disagree with that perspective."
  else if ["hate", "disgusting", "terrible"].any (fun w => Py.contains text_lower w) then
    "I understand there may be strong feelings about this, but let's keep the discussion respectful."
  else if ["shut up", "quiet", "be silent"].any (fun w => Py.contains text_lower w) then
    "I'd prefer if we could have a constructive conversation."
  else if ["ugly", "gross", "hideous"].any (fun w => Py.contains text_lower w) then
    "I don't think that kind of comment is helpful here."
  else if ["loser", "failure", "worthless"].any (fun w => Py.contains text_lower w) then
    "Everyone has value and deserves to be treated with respect."
  else
    "I'd like to express this in a more constructive way."

/-- `chat_moderation/main.py::local_paraphrase`: run the local T5 pipeline
(outcome `localOut`: `some raw` on success, `none` when it raises), clean the
output, return it if valid, otherwise the generic polite message; any
exception also falls back to the generic polite message. -/
def local_paraphrase (text : String) (localOut : Option String) : String :=
  match localOut with
  | none => create_generic_polite_message text
  | some raw =>
    let cleaned := clean_rephrased_text raw
    if is_valid_rephrasing text cleaned then cleaned
    else create_generic_polite_message text

/-- `chat_moderation/main.py::rephrase_with_groq`: `none` when the client is
unconfigured, the call raises, or the cleaned candidate is invalid; otherwise
the cleaned candidate.  `remote` is the raw completion outcome. -/
def rephrase_with_groq (text : String) (remote : Option String) : Option String :=
  match remote with
  | none => none
  | some raw =>
    let cleaned := clean_rephrased_text raw
    if is_valid_rephrasing text cleaned then some cleaned
    else none

/-- `chat_moderation/main.py::rephrase_logic`: Groq first, local fallback. -/
def rephrase_logic (text : String) (remote localOut : Option String) : String :=
  match rephrase_with_groq text remote with
  | some groq_result => groq_result
  | none => local_paraphrase text localOut

/-- `chat_moderation/main.py::moderate_text` (`POST /moderate`): strip the
input, score it (the Detoxify call has no exception handler, so a scorer
failure propagates), compare the unrounded score against the threshold, and
report the score rounded to 3 decimals. -/
def moderate_text (predict : Except Unit ℚ) (remote localOut : Option String)
    (msgText : String) : Except Unit ModResponse :=
  let text := Py.strip msgText
  match predict with
  | .error e => .error e
  | .ok toxicity_score =>
    if toxicity_score ≤ TOXICITY_THRESHOLD then
      .ok (.allowedResp (round3 toxicity_score) text)
    else
      .ok (.blockedResp (round3 toxicity_score) text (rephrase_logic text remote localOut))

/-- One chat-stream broadcast payload (`/ws` handler; the wall-clock
`timestamp` field is not modelled). -/
structure ChatWsResponse where
  username : String
  original_text : String
  toxicity : ℚ
  allowed : Bool
  display_text : String
deriving DecidableEq

/-- `chat_moderation/main.py::websocket_chat_endpoint`, one message: score
the raw text (no strip), allow iff the unrounded score is ≤ threshold,
rephrase otherwise. -/
def websocket_chat_step (predict : Except Unit ℚ) (remote localOut : Option String)
    (username msgText : String) : Except Unit ChatWsResponse :=
  match predict with
  | .error e => .error e
  | .ok toxicity_score =>
    if toxicity_score ≤ TOXICITY_THRESHOLD then
      .ok ⟨username, msgText, round3 toxicity_score, true, msgText⟩
    else
      .ok ⟨username, msgText, round3 toxicity_score, false,
           rephrase_logic msgText remote localOut⟩

/-- One moderator-stream broadcast payload (`/ws/moderator` handler). -/
structure ModeratorWsResponse where
  original : String
  final : String
  toxicity : ℚ
  moderated : Bool
deriving DecidableEq

/-- `chat_moderation/main.py::websocket_moderator_endpoint`, one message:
note the code computes `moderated = toxicity_score >= TOXICITY_THRESHOLD`. -/
def websocket_moderator_step (predict : Except Unit ℚ) (remote localOut : Option String)
    (msgText : String) : Except Unit ModeratorWsResponse :=
  match predict with
  | .error e => .error e
  | .ok toxicity_score =>
    let moderated : Bool := decide (TOXICITY_THRESHOLD ≤ toxicity_score)
    let final_text :=
      if moderated then rephrase_logic msgText remote localOut else msgText
    .ok ⟨msgText, final_text, round3 toxicity_score, moderated⟩

end ChatMod

namespace Api

/-- `api/index.py` / `api/moderate.py`: the regex `re.sub(r'^["\x27]|["\x27]$', '', text)`:
remove one leading quote character and one trailing quote character,
each independently of the other (no matching-pair requirement). -/
def stripQuoteEnds (s : String) : String :=
  let s1 := if (Py.front s = some '"') || (Py.front s = some '\'') then Py.drop s 1 else s
  if (Py.back s1 = some '"') || (Py.back s1 = some '\'') then Py.dropRight s1 1 else s1

/-- The regex `re.sub(r'^\*\*|!\*\*$', '', text)`: remove a leading `**`
and a trailing `!**`. -/
def stripMdEnds (s : String) : String :=
  let s1 := if Py.startsWith s "**" then Py.drop s 2 else s
  if Py.endsWith s1 "!**" then Py.dropRight s1 3 else s1

/-- The regex `re.sub(r'^[:;\-—]\s*', '', text)`: remove one leading
punctuation separator and the whitespace following it. -/
def stripLeadingPunctSep (s : String) : String :=
  if (Py.front s = some ':') || (Py.front s = some ';')
      || (Py.front s = some '-') || (Py.front s = some '—') then
    Py.dropWhileL (Py.drop s 1) Char.isWhitespace
  else s

/-- `api/index.py` / `api/moderate.py` boilerplate prefix list. -/
def prefixes_to_remove : List String :=
  ["Here's a polite version:",
   "Rewritten text:",
   "Polite version:",
   "Here is the rewritten text:",
   "The rewritten message is:",
   "POLITE VERSION:",
   "Rephrased:"]

/-- `api/index.py` / `api/moderate.py::clean_rephrased_text`: strip, quote
ends, markdown ends, then every matching prefix in list order (each followed
by a punctuation-separator strip), then quote ends again, then strip. -/
def clean_rephrased_text (text : String) : String :=
  let t := Py.strip text
  let t := stripQuoteEnds t
  let t := stripMdEnds t
  let t := prefixes_to_remove.foldl
    (fun acc p =>
      if Py.startsWith (Py.lower acc) (Py.lower p) then
        stripLeadingPunctSep (Py.strip (Py.drop acc (Py.len p)))
      else acc)
    t
  Py.strip (stripQuoteEnds t)

/-- `api/index.py` / `api/moderate.py::is_valid_rephrasing` refusal markers. -/
def refusal_patterns : List String :=
  ["i cannot", "i can't", "i'm unable", "i am unable",
   "sorry", "apologize", "inappropriate",
   "i don't feel comfortable", "i cannot assist"]

/-- `api/index.py` / `api/moderate.py::is_valid_rephrasing`: non-empty and
length ≥ 3, no refusal marker, not case-insensitively identical (without
stripping) to the original. -/
def is_valid_rephrasing (original rephrased : String) : Bool :=
  if rephrased = "" || Py.len rephrased < 3 then false
  else if refusal_patterns.any (fun p => Py.contains (Py.lower rephrased) p) then false
  else if Py.lower rephrased = Py.lower original then false
  else true

/-- `api/index.py` / `api/moderate.py::create_generic_polite_message`:
fixed-priority keyword classification of the lower-cased original, first
match wins; a question mark in the original (checked un-lowered) selects the
clarification message before the generic fallback. -/
def create_generic_polite_message (original_text : String) : String :=
  let text_lower := Py.lower original_text
  if ["stupid", "dumb", "idiot", "moron"].any (fun w => Py.contains text_lower w) then
    "I don't think that's the best approach."
  else if ["hate", "awful", "terrible", "worst"].any (fun w => Py.contains text_lower w) then
    "I'm not comfortable with this."
  else if ["shut up", "shut", "quiet"].any (fun w => Py.contains text_lower w) then
    "I'd prefer if we could pause this conversation."
  else if ["wrong", "disagree", "no"].any (fun w => Py.contains text_lower w) then
    "I have a different perspective on this."
  else if ["ugly", "bad", "trash"].any (fun w => Py.contains text_lower w) then
    "I don't think this meets our standards."
  else if Py.contains original_text "?" then
    "Could you help me understand this better?"
  else
    "I'd like to express this more constructively."

/-- `api/index.py::local_paraphrase` (outcome `localOut` as in `ChatMod`). -/
def local_paraphrase (text : String) (localOut : Option String) : String :=
  match localOut with
  | none => create_generic_polite_message text
  | some raw =>
    let rephrased := clean_rephrased_text raw
    if is_valid_rephrasing text rephrased then rephrased
    else create_generic_polite_message text

/-- `api/index.py::rephrase_with_groq` (raw completion outcome `remote`). -/
def rephrase_with_groq (text : String) (remote : Option String) : Option String :=
  match remote with
  | none => none
  | some raw =>
    let rephrased := clean_rephrased_text raw
    if is_valid_rephrasing text rephrased then some rephrased
    else none

/-- `api/index.py::rephrase_logic`: Groq first (`if result:` is Python
truthiness, so an empty string also falls through), then the local model. -/
def rephrase_logic (text : String) (remote localOut : Option String) : String :=
  match rephrase_with_groq text remote with
  | some result => if result = "" then local_paraphrase text localOut else result
  | none => local_paraphrase text localOut

/-- `api/index.py::moderate` (`POST /moderate`): same shape as
`ChatMod.moderate_text`, threshold written inline as `0.5`. -/
def moderate (predict : Except Unit ℚ) (remote localOut : Option String)
    (msgText : String) : Except Unit ModResponse :=
  let text := Py.strip msgText
  match predict with
  | .error e => .error e
  | .ok toxicity =>
    if toxicity ≤ mkRat 1 2 then
      .ok (.allowedResp (round3 toxicity) text)
    else
      .ok (.blockedResp (round3 toxicity) text (rephrase_logic text remote localOut))

end Api

namespace ApiMin

/-- `api/moderate.py::simple_toxicity_detection` keyword list, kept with its
duplicate entries ("stupid", "dumb" and "hate" each occur twice). -/
def toxic_keywords : List String :=
  ["idiot", "stupid", "dumb", "moron", "hate", "kill", "murder",
   "hate", "awful", "terrible", "worst", "ugly", "stupid", "dumb", "fuck",
   "shit", "bitch", "asshole", "dick", "pussy", "cunt", "nigger", "fag"]

/-- `api/moderate.py::simple_toxicity_detection`: count how many list
entries (not distinct words) occur in the lower-cased text, then map the
count to a score. -/
def simple_toxicity_detection (text : String) : ℚ :=
  let text_lower := Py.lower text
  let toxic_count := toxic_keywords.countP (fun w => Py.contains text_lower w)
  if toxic_count = 0 then mkRat 0 1
  else if toxic_count = 1 then mkRat 4 10
  else if toxic_count = 2 then mkRat 6 10
  else if toxic_count = 3 then mkRat 7 10
  else min (mkRat 9 10) (mkRat 6 10 + (toxic_count : ℚ) * mkRat 1 10)

/-- `api/moderate.py::rephrase_with_groq`: disabled in the minimal
deployment, always returns `None`. -/
def rephrase_with_groq : Option String := none

/-- `api/moderate.py::moderate` (`POST /moderate`): keyword score, threshold
`0.5` inline; on the blocked branch `rephrase_with_groq` yields `None`
(falsy), so the generic polite message is always used. -/
def moderate (msgText : String) : ModResponse :=
  let text := Py.strip msgText
  let toxicity := simple_toxicity_detection text
  if toxicity ≤ mkRat 1 2 then
    .allowedResp (round3 toxicity) text
  else
    let rephrased_text :=
      match rephrase_with_groq with
      | none => Api.create_generic_polite_message text
      | some r => if r = "" then Api.create_generic_polite_message text else r
    .blockedResp (round3 toxicity) text rephrased_text

end ApiMin

namespace ConnectionManager

/-- `chat_moderation/main.py::ConnectionManager.connect`: unconditionally
append the subscriber to `active_connections` (subscribers are identified by
natural numbers). -/
def connect (active_connections : List ℕ) (websocket : ℕ) : List ℕ :=
  active_connections ++ [websocket]

/-- `chat_moderation/main.py::ConnectionManager.disconnect`: remove the
first matching entry, a no-op if absent (Python `list.remove` guarded by a
membership test). -/
def disconnect (active_connections : List ℕ) (websocket : ℕ) : List ℕ :=
  if websocket ∈ active_connections then active_connections.erase websocket
  else active_connections

/-- `chat_moderation/main.py::ConnectionManager.broadcast`: iterate over the
full registry attempting `send_text` on each entry (`fails c = true` models
the send raising for subscriber `c`); failures are collected and only after
the sweep is each collected entry disconnected.  Returns the new registry
and the list of entries whose delivery succeeded, in sweep order. -/
def broadcast (active_connections : List ℕ) (fails : ℕ → Bool) :
    List ℕ × List ℕ :=
  let disconnected := active_connections.filter fails
  let delivered := active_connections.filter (fun c => !(fails c))
  (disconnected.foldl (fun conns c => disconnect conns c) active_connections,
   delivered)

end ConnectionManager

/-! Helper lemmas shared by the claim theorems. -/

theorem chatMod_valid_ne_empty {t c : String}
    (h : ChatMod.is_valid_rephrasing t c = true) : c ≠ "" := by
  intro hc
  subst hc
  have hlt : Py.len "" < 5 := by decide
  unfold ChatMod.is_valid_rephrasing at h
  rw [if_pos hlt] at h
  exact Bool.false_ne_true h

theorem chatMod_generic_ne_empty (t : String) :
    ChatMod.create_generic_polite_message t ≠ "" := by
  simp only [ChatMod.create_generic_polite_message]
  repeat' split
  all_goals decide

theorem api_generic_ne_empty (t : String) :
    Api.create_generic_polite_message t ≠ "" := by
  simp only [Api.create_generic_polite_message]
  repeat' split
  all_goals decide

theorem chatMod_local_paraphrase_spec (text : String) (localOut : Option String) :
    ChatMod.local_paraphrase text localOut ≠ "" ∧
    (ChatMod.is_valid_rephrasing text (ChatMod.local_paraphrase text localOut) = true ∨
     ChatMod.local_paraphrase text localOut = ChatMod.create_generic_polite_message text) := by
  cases localOut with
  | none => exact ⟨chatMod_generic_ne_empty text, Or.inr rfl⟩
  | some raw =>
    by_cases hv : ChatMod.is_valid_rephrasing text (ChatMod.clean_rephrased_text raw) = true
    · have hres : ChatMod.local_paraphrase text (some raw) = ChatMod.clean_rephrased_text raw := by
        simp [ChatMod.local_paraphrase, hv]
      rw [hres]
      exact ⟨chatMod_valid_ne_empty hv, Or.inl hv⟩
    · have hres : ChatMod.local_paraphrase text (some raw)
          = ChatMod.create_generic_polite_message text := by
        simp [ChatMod.local_paraphrase, hv]
      rw [hres]
      exact ⟨chatMod_generic_ne_empty text, Or.inr rfl⟩

theorem chatMod_groq_some_valid {text r : String} {remote : Option String}
    (h : ChatMod.rephrase_with_groq text remote = some r) :
    ChatMod.is_valid_rephrasing text r = true := by
  cases remote with
  | none => exact absurd h (by simp [ChatMod.rephrase_with_groq])
  | some raw =>
    by_cases hv : ChatMod.is_valid_rephrasing text (ChatMod.clean_rephrased_text raw) = true
    · have : ChatMod.rephrase_with_groq text (some raw)
          = some (ChatMod.clean_rephrased_text raw) := by
        simp [ChatMod.rephrase_with_groq, hv]
      rw [this] at h
      obtain rfl : ChatMod.clean_rephrased_text raw = r := Option.some.inj h
      exact hv
    · have : ChatMod.rephrase_with_groq text (some raw) = none := by
        simp [ChatMod.rephrase_with_groq, hv]
      rw [this] at h
      exact absurd h (by simp)

theorem connMgr_disconnect_cons {a c : ℕ} (acc : List ℕ) (h : c ≠ a) :
    ConnectionManager.disconnect (a :: acc) c = a :: ConnectionManager.disconnect acc c := by
  unfold ConnectionManager.disconnect
  by_cases hc : c ∈ acc
  · rw [if_pos (List.mem_cons_of_mem _ hc), if_pos hc,
      List.erase_cons_tail (by simpa using fun e => h e.symm)]
  · have hnc : c ∉ a :: acc := by
      simp only [List.mem_cons]
      rintro (rfl | hmem)
      · exact h rfl
      · exact hc hmem
    rw [if_neg hnc, if_neg hc]

theorem connMgr_foldl_disconnect_cons (l : List ℕ) (a : ℕ) (acc : List ℕ)
    (h : ∀ c ∈ l, c ≠ a) :
    l.foldl (fun conns c => ConnectionManager.disconnect conns c) (a :: acc)
      = a :: l.foldl (fun conns c => ConnectionManager.disconnect conns c) acc := by
  induction l generalizing acc with
  | nil => rfl
  | cons c t ih =>
    simp only [List.foldl_cons]
    rw [connMgr_disconnect_cons acc (h c (List.mem_cons_self c t))]
    exact ih _ (fun x hx => h x (List.mem_cons_of_mem _ hx))

theorem connMgr_prune_eq_filter (conns : List ℕ) (fails : ℕ → Bool) :
    (conns.filter fails).foldl (fun st c => ConnectionManager.disconnect st c) conns
      = conns.filter (fun c => !(fails c)) := by
  induction conns with
  | nil => rfl
  | cons a t ih =>
    by_cases hf : fails a = true
    · rw [List.filter_cons_of_pos hf, List.filter_cons_of_neg (by simp [hf])]
      simp only [List.foldl_cons]
      have hd : ConnectionManager.disconnect (a :: t) a = t := by
        unfold ConnectionManager.disconnect
        rw [if_pos (List.mem_cons_self a t), List.erase_cons_head]
      rw [hd]
      exact ih
    · have hf' : fails a = false := Bool.eq_false_iff.mpr hf
      rw [List.filter_cons_of_neg (by simp [hf']), List.filter_cons_of_pos (by simp [hf'])]
      rw [connMgr_foldl_disconnect_cons _ _ _
        (fun c hc => by
          have : fails c = true := List.of_mem_filter hc
          intro e
          rw [e, hf'] at this
          exact Bool.false_ne_true this)]
      rw [ih]

/-! Claim theorems. -/

/-- C6: for every string `x` (in particular every non-empty one), both
validators reject a candidate identical to the original:
`is_valid_rephrasing x x = false` in `chat_moderation/main.py` and in
`api/index.py` / `api/moderate.py`. -/
theorem validator_rejects_identity (x : String) :
    ChatMod.is_valid_rephrasing x x = false ∧ Api.is_valid_rephrasing x x = false := by
  constructor
  · simp [ChatMod.is_valid_rephrasing]
  · simp [Api.is_valid_rephrasing]

/-- C8: a scorer failure is a hard failure of `moderate` in both
`chat_moderation/main.py` and `api/index.py`: the moderation call returns
normally exactly when the scorer call does, a scorer error is returned
unchanged, and on scorer success the result's score is derived (by rounding)
from the scorer's toxicity value — no default score is substituted. -/
theorem moderate_scorer_failure_propagates (pr : Except Unit ℚ)
    (remote localOut : Option String) (t : String) (s : ℚ) :
    exceptOk (ChatMod.moderate_text pr remote localOut t) = exceptOk pr ∧
    exceptOk (Api.moderate pr remote localOut t) = exceptOk pr ∧
    ChatMod.moderate_text (Except.error ()) remote localOut t = Except.error () ∧
    Api.moderate (Except.error ()) remote localOut t = Except.error () ∧
    (ChatMod.moderate_text (Except.ok s) remote localOut t).map ModResponse.score
      = Except.ok (round3 s) ∧
    (Api.moderate (Except.ok s) remote localOut t).map ModResponse.score
      = Except.ok (round3 s) := by
  refine ⟨?_, ?_, rfl, rfl, ?_, ?_⟩
  · cases pr with
    | error e => rfl
    | ok q =>
      unfold ChatMod.moderate_text
      dsimp only
      split <;> rfl
  · cases pr with
    | error e => rfl
    | ok q =>
      unfold Api.moderate
      dsimp only
      split <;> rfl
  · unfold ChatMod.moderate_text
    dsimp only
    split <;> rfl
  · unfold Api.moderate
    dsimp only
    split <;> rfl

/-- C3: `broadcast` attempts delivery to every entry of the registry as it
stood when the sweep began; exactly the failing entries are pruned, and only
after the sweep, so the surviving registry and the delivered list both equal
the non-failing entries in order.  Concretely, with subscribers `[1, 2, 3]`
and delivery to `2` failing, `1` and `3` each receive the message exactly
once and stay registered, `2` is removed, and a subsequent broadcast
delivers only to `1` and `3`. -/
theorem broadcast_sweep_then_prune (conns : List ℕ) (fails : ℕ → Bool) :
    (ConnectionManager.broadcast conns fails).2 = conns.filter (fun c => !(fails c)) ∧
    (ConnectionManager.broadcast conns fails).1 = conns.filter (fun c => !(fails c)) ∧
    ConnectionManager.broadcast [1, 2, 3] (fun c => c == 2) = ([1, 3], [1, 3]) ∧
    ConnectionManager.broadcast [1, 3] (fun _ => false) = ([1, 3], [1, 3]) := by
  refine ⟨rfl, ?_, by decide, by decide⟩
  exact connMgr_prune_eq_filter conns fails

/-- C10: `connect` appends unconditionally, so connecting an
already-registered subscriber duplicates its registry entry, a following
failure-free broadcast delivers to it once per entry (at least twice), and a
single `disconnect` removes only one of the entries. -/
theorem connect_not_idempotent (conns : List ℕ) (w : ℕ) (h : w ∈ conns) :
    (ConnectionManager.connect conns w).count w = conns.count w + 1 ∧
    2 ≤ ((ConnectionManager.broadcast (ConnectionManager.connect conns w)
          (fun _ => false)).2).count w ∧
    (ConnectionManager.disconnect (ConnectionManager.connect conns w) w).count w
      = conns.count w := by
  have hcount : (ConnectionManager.connect conns w).count w = conns.count w + 1 := by
    unfold ConnectionManager.connect
    rw [List.count_append]
    simp
  refine ⟨hcount, ?_, ?_⟩
  · have hdel : (ConnectionManager.broadcast (ConnectionManager.connect conns w)
        (fun _ => false)).2 = ConnectionManager.connect conns w := by
      unfold ConnectionManager.broadcast
      simp
    rw [hdel, hcount]
    have : 1 ≤ conns.count w := List.one_le_count_iff.mpr h
    omega
  · have hmem : w ∈ ConnectionManager.connect conns w := by
      unfold ConnectionManager.connect
      exact List.mem_append_right _ (List.mem_singleton.mpr rfl)
    unfold ConnectionManager.disconnect
    rw [if_pos hmem, List.count_erase_self, hcount]
    omega

/-- Closed witness for `connect_not_idempotent` at the registry `[7]` with
subscriber `7`. -/
theorem connect_not_idempotent_witness :
    (7 : ℕ) ∈ [7] ∧
    ((ConnectionManager.connect [7] 7).count 7 = ([7] : List ℕ).count 7 + 1 ∧
     2 ≤ ((ConnectionManager.broadcast (ConnectionManager.connect [7] 7)
           (fun _ => false)).2).count 7 ∧
     (ConnectionManager.disconnect (ConnectionManager.connect [7] 7) 7).count 7
       = ([7] : List ℕ).count 7) :=
  ⟨by decide, connect_not_idempotent [7] 7 (by decide)⟩

/-- C1 counterexample: at toxicity score exactly `0.5` the `/moderate`
endpoint allows the message, yet the moderator-view stream marks it
`moderated` (its comparison is `score >= threshold`), so `moderated` is not
`not allowed` there and a message scoring exactly `0.5` is not "not
moderated" uniformly. -/
theorem moderator_stream_half_counterexample :
    (ChatMod.moderate_text (Except.ok (mkRat 1 2)) none none "hi").map ModResponse.allowed
      = Except.ok true ∧
    (ChatMod.websocket_moderator_step (Except.ok (mkRat 1 2)) none none "hi").map
        ChatMod.ModeratorWsResponse.moderated
      = Except.ok true := by
  decide

/-- C1 amended: at `/moderate` and the chat stream, `allowed` equals
`unrounded score ≤ 0.5` and the reported score is the score rounded to
3 decimal places; the moderator stream instead computes
`moderated = (score ≥ 0.5)`, which agrees with `not allowed` except at a
score of exactly `0.5`, where the message is allowed yet marked moderated.
The closing conjuncts show the comparison uses the unrounded value: a score
of `0.5004999` is blocked although its reported rounded score is `0.5`. -/
theorem threshold_policy_per_entry_point (s : ℚ) (remote localOut : Option String)
    (u t : String) :
    (ChatMod.moderate_text (Except.ok s) remote localOut t).map ModResponse.allowed
      = Except.ok (decide (s ≤ TOXICITY_THRESHOLD)) ∧
    (ChatMod.moderate_text (Except.ok s) remote localOut t).map ModResponse.score
      = Except.ok (round3 s) ∧
    (ChatMod.websocket_chat_step (Except.ok s) remote localOut u t).map
        ChatMod.ChatWsResponse.allowed
      = Except.ok (decide (s ≤ TOXICITY_THRESHOLD)) ∧
    (ChatMod.websocket_chat_step (Except.ok s) remote localOut u t).map
        ChatMod.ChatWsResponse.toxicity
      = Except.ok (round3 s) ∧
    (ChatMod.websocket_moderator_step (Except.ok s) remote localOut t).map
        ChatMod.ModeratorWsResponse.moderated
      = Except.ok (decide (TOXICITY_THRESHOLD ≤ s)) ∧
    (ChatMod.websocket_moderator_step (Except.ok s) remote localOut t).map
        ChatMod.ModeratorWsResponse.toxicity
      = Except.ok (round3 s) ∧
    (ChatMod.moderate_text (Except.ok (mkRat 5004999 10000000)) none none "x").map
        ModResponse.allowed
      = Except.ok false ∧
    (ChatMod.moderate_text (Except.ok (mkRat 5004999 10000000)) none none "x").map
        ModResponse.score
      = Except.ok (mkRat 1 2) := by
  by_cases h : s ≤ TOXICITY_THRESHOLD <;>
    refine ⟨?_, ?_, ?_, ?_, rfl, rfl, by decide, by decide⟩ <;>
    simp [ChatMod.moderate_text, ChatMod.websocket_chat_step, h,
      Except.map, ModResponse.allowed, ModResponse.score]

/-- C2 counterexample: when the original text is itself the generic polite
message and both rewrite stages fail, `rephrase_logic` returns exactly that
text, and the validator rejects it (case-insensitive identity), so the
chain's output does not always satisfy `is_valid_rephrasing`. -/
theorem rewrite_chain_validity_counterexample :
    ChatMod.rephrase_logic "I'd like to express this in a more constructive way." none none
      = "I'd like to express this in a more constructive way." ∧
    ChatMod.is_valid_rephrasing "I'd like to express this in a more constructive way."
      (ChatMod.rephrase_logic "I'd like to express this in a more constructive way." none none)
      = false := by
  decide

/-- C2 amended: for every input and every outcome of the remote and local
services, `rephrase_logic` returns a non-empty string, and the returned
string either satisfies `is_valid_rephrasing` against the original or is the
generic polite fallback message verbatim (which can fail validation only by
being identical to the original). -/
theorem rewrite_chain_total_amended (text : String) (remote localOut : Option String) :
    ChatMod.rephrase_logic text remote localOut ≠ "" ∧
    (ChatMod.is_valid_rephrasing text (ChatMod.rephrase_logic text remote localOut) = true ∨
     ChatMod.rephrase_logic text remote localOut
       = ChatMod.create_generic_polite_message text) := by
  rcases hg : ChatMod.rephrase_with_groq text remote with _ | r
  · have hres : ChatMod.rephrase_logic text remote localOut
        = ChatMod.local_paraphrase text localOut := by
      simp [ChatMod.rephrase_logic, hg]
    rw [hres]
    exact chatMod_local_paraphrase_spec text localOut
  · have hv := chatMod_groq_some_valid hg
    have hres : ChatMod.rephrase_logic text remote localOut = r := by
      simp [ChatMod.rephrase_logic, hg]
    rw [hres]
    exact ⟨chatMod_valid_ne_empty hv, Or.inl hv⟩

/-- C4 counterexample: the `chat_moderation/main.py` normalizer strips
prefixes before quotes, so on the claim's own test input it leaves the
boilerplate prefix in place; and the `api` variant can strip more than one
boilerplate prefix in a single pass. -/
theorem normalizer_order_counterexample :
    ChatMod.clean_rephrased_text "\"Rephrased: Hello there\"" = "Rephrased: Hello there" ∧
    ChatMod.clean_rephrased_text "\"Rephrased: Hello there\"" ≠ "Hello there" ∧
    Api.clean_rephrased_text "Polite version: Rephrased: Hello there" = "Hello there" := by
  decide

/-- C4 amended: the `api` variant strips in the order trim, quote ends
(leading and trailing independently, no matching-pair requirement), markdown
markers (`**` leading, `!**` trailing), boilerplate prefixes
case-insensitively (possibly several, each followed by a punctuation
separator strip), then quote ends again — so it maps
`"Rephrased: Hello there"` (with quotes) to `Hello there`; the
`chat_moderation/main.py` variant strips prefixes first and surrounding
matching quotes last, so the same input keeps its prefix there, while an
unquoted `Rephrased:` prefix is stripped. -/
theorem normalizer_variant_behaviour :
    Api.clean_rephrased_text "\"Rephrased: Hello there\"" = "Hello there" ∧
    Api.clean_rephrased_text "**Rephrased: Hello there!**" = "Hello there" ∧
    Api.clean_rephrased_text "'Hello there" = "Hello there" ∧
    ChatMod.clean_rephrased_text "Rephrased: Hello there" = "Hello there" ∧
    ChatMod.clean_rephrased_text "\"Rephrased: Hello there\"" = "Rephrased: Hello there" := by
  decide

/-- C5 counterexample: the `chat_moderation/main.py` fallback selector has
no question-mark branch, so `"Can you explain?"` (matching no category
keywords) yields the generic constructive-rewording message, not a
clarification request. -/
theorem fallback_clarification_counterexample :
    ChatMod.create_generic_polite_message "Can you explain?"
      = "I'd like to express this in a more constructive way." ∧
    ChatMod.create_generic_polite_message "Can you explain?"
      ≠ "Could you help me understand this better?" := by
  decide

/-- C5 amended: both fallback selectors are total (non-empty output for
every input) and deterministic with first-match-wins priority;
`"You are so stupid"` selects the insult-category message in both variants;
`"Can you explain?"` selects the clarification-request message in the `api`
variant, while the `chat_moderation/main.py` variant, which has no
question-mark category, returns its generic constructive message. -/
theorem fallback_selector_amended (t : String) :
    ChatMod.create_generic_polite_message t ≠ "" ∧
    Api.create_generic_polite_message t ≠ "" ∧
    ChatMod.create_generic_polite_message "You are so stupid"
      = "I respectfully disagree with that perspective." ∧
    Api.create_generic_polite_message "You are so stupid"
      = "I don't think that's the best approach." ∧
    Api.create_generic_polite_message "Can you explain?"
      = "Could you help me understand this better?" ∧
    ChatMod.create_generic_polite_message "Can you explain?"
      = "I'd like to express this in a more constructive way." :=
  ⟨chatMod_generic_ne_empty t, api_generic_ne_empty t,
   by decide, by decide, by decide, by decide⟩

/-- C7 counterexample: the `api/index.py` validator's minimum length is 3,
not 5 — the 4-character candidate `"Hiya"` is accepted. -/
theorem validator_min_length_counterexample :
    Py.len "Hiya" < 5 ∧
    Api.is_valid_rephrasing "You are terrible" "Hiya" = true := by
  decide

/-- C7 amended: the `chat_moderation/main.py` validator rejects every
candidate shorter than 5 characters, but the `api/index.py` /
`api/moderate.py` variant rejects only candidates shorter than 3
characters. -/
theorem validator_min_length_amended (o c : String) :
    (Py.len c < 5 → ChatMod.is_valid_rephrasing o c = false) ∧
    (Py.len c < 3 → Api.is_valid_rephrasing o c = false) := by
  constructor
  · intro h5
    unfold ChatMod.is_valid_rephrasing
    rw [if_pos h5]
  · intro h3
    unfold Api.is_valid_rephrasing
    rw [if_pos]
    simp [h3]

/-- Closed witness for `validator_min_length_amended` at the 2-character
candidate `"hi"`. -/
theorem validator_min_length_witness :
    (Py.len "hi" < 5 ∧ Py.len "hi" < 3) ∧
    ChatMod.is_valid_rephrasing "Hello there friend" "hi" = false ∧
    Api.is_valid_rephrasing "Hello there friend" "hi" = false :=
  ⟨⟨by decide, by decide⟩,
   (validator_min_length_amended "Hello there friend" "hi").1 (by decide),
   (validator_min_length_amended "Hello there friend" "hi").2 (by decide)⟩

/-- The keyword score of `api/moderate.py` only ever takes one of the five
values `0`, `0.4`, `0.6`, `0.7`, `0.9`. -/
theorem apiMin_score_mem (text : String) :
    ApiMin.simple_toxicity_detection text = mkRat 0 1 ∨
    ApiMin.simple_toxicity_detection text = mkRat 4 10 ∨
    ApiMin.simple_toxicity_detection text = mkRat 6 10 ∨
    ApiMin.simple_toxicity_detection text = mkRat 7 10 ∨
    ApiMin.simple_toxicity_detection text = mkRat 9 10 := by
  simp only [ApiMin.simple_toxicity_detection]
  set n := ApiMin.toxic_keywords.countP (fun w => Py.contains (Py.lower text) w) with hn
  by_cases h0 : n = 0
  · simp [h0]
  by_cases h1 : n = 1
  · simp [h0, h1]
  by_cases h2 : n = 2
  · simp [h0, h1, h2]
  by_cases h3 : n = 3
  · simp [h0, h1, h2, h3]
  have h4 : 4 ≤ n := by omega
  have hmin : min (mkRat 9 10) (mkRat 6 10 + (n : ℚ) * mkRat 1 10) = mkRat 9 10 := by
    apply min_eq_left
    have hn4 : (4 : ℚ) ≤ (n : ℚ) := by exact_mod_cast h4
    have e9 : (mkRat 9 10 : ℚ) = 9 / 10 := by
      norm_num [Rat.mkRat_eq_divInt, Rat.divInt_eq_div]
    have e6 : (mkRat 6 10 : ℚ) = 6 / 10 := by
      norm_num [Rat.mkRat_eq_divInt, Rat.divInt_eq_div]
    have e1 : (mkRat 1 10 : ℚ) = 1 / 10 := by
      norm_num [Rat.mkRat_eq_divInt, Rat.divInt_eq_div]
    rw [e9, e6, e1]
    linarith
  simp [h0, h1, h2, h3, hmin]

/-- C9: the minimal variant's toxicity score counts occurrences over list
entries, so the twice-listed words "stupid", "dumb" and "hate" each count
double: one occurrence of "stupid" scores `0.6` and is blocked by
`/moderate`, while one occurrence of the once-listed "idiot" scores `0.4`
and is allowed; every score lies in `{0, 0.4, 0.6, 0.7, 0.9}` and never
exceeds `0.9`. -/
theorem simple_toxicity_score_range (text : String) :
    (ApiMin.simple_toxicity_detection text = mkRat 0 1 ∨
     ApiMin.simple_toxicity_detection text = mkRat 4 10 ∨
     ApiMin.simple_toxicity_detection text = mkRat 6 10 ∨
     ApiMin.simple_toxicity_detection text = mkRat 7 10 ∨
     ApiMin.simple_toxicity_detection text = mkRat 9 10) ∧
    ApiMin.simple_toxicity_detection text ≤ mkRat 9 10 ∧
    ApiMin.toxic_keywords.count "stupid" = 2 ∧
    ApiMin.toxic_keywords.count "dumb" = 2 ∧
    ApiMin.toxic_keywords.count "hate" = 2 ∧
    ApiMin.toxic_keywords.count "idiot" = 1 ∧
    ApiMin.simple_toxicity_detection "You are stupid" = mkRat 6 10 ∧
    (ApiMin.moderate "You are stupid").allowed = false ∧
    ApiMin.simple_toxicity_detection "You are an idiot" = mkRat 4 10 ∧
    (ApiMin.moderate "You are an idiot").allowed = true := by
  have hmem := apiMin_score_mem text
  refine ⟨hmem, ?_, by decide, by decide, by decide, by decide, by decide, by decide,
    by decide, by decide⟩
  rcases hmem with h | h | h | h | h <;> rw [h] <;> decide
